import Mathlib

/-
Shallow embedding of the yevginx/devsecops part2-dev-platform sources:
  * k8s-operator/environment-operator.py  (EnvironmentOperator and kopf handlers)
  * dns-controller/dns-controller.py      (DNSController)
Machine wall-clock times are modelled as natural numbers (seconds); Python dict
string values read with dict.get are modelled as Option String; a raised Python
exception is modelled as an Except error or an Option none, as noted per
definition.
-/

/-- Python str.endswith, implemented structurally over the character list so
that concrete instances evaluate by kernel reduction. -/
def strEndsWith (s sfx : String) : Bool :=
  List.isSuffixOf sfx.data s.data

/-- Python slicing s[:-n] on the strings at hand (drop the last n characters). -/
def strDropRight (s : String) (n : Nat) : String :=
  ⟨s.data.take (s.data.length - n)⟩

/-- Python slicing s[:n] (keep the first n characters), as used for the
eight-character environment-id short form env_id[:8]. -/
def strTake (s : String) (n : Nat) : String :=
  ⟨s.data.take n⟩

/-- Decimal digit run evaluator for strToInt?. -/
def digitsVal (l : List Char) (acc : Nat) : Option Nat :=
  match l with
  | [] => some acc
  | c :: t => if c.isDigit then digitsVal t (acc * 10 + (c.toNat - 48)) else none

/-- Nonempty all-digit character list to a natural number. -/
def natDigits? (l : List Char) : Option Nat :=
  match l with
  | [] => none
  | _ :: _ => digitsVal l 0

/-- Python int(str): an optional sign followed by a nonempty digit run; any
other shape raises ValueError, modelled as none. -/
def strToInt? (s : String) : Option Int :=
  match s.data with
  | '-' :: t => (natDigits? t).map (fun n => -(n : Int))
  | '+' :: t => (natDigits? t).map (fun n => (n : Int))
  | l => (natDigits? l).map (fun n => (n : Int))

/-- EnvironmentSpec (environment-operator.py lines 24-39) restricted to the
fields the operator reads, with the resources/limits dicts flattened to the
keys the code accesses (cpu, memory, gpu, storage).  Field defaults mirror the
spec.get defaults applied in the create_environment handler (lines 496-510). -/
structure EnvironmentSpec where
  name : String
  base_image : String
  custom_image : Option String := none
  resources_cpu : Option String := none
  resources_memory : Option String := none
  resources_gpu : Option String := none
  resources_storage : Option String := none
  limits_cpu : Option String := none
  limits_memory : Option String := none
  limits_gpu : Option String := none
  enable_ssh : Bool := true
  enable_jupyter : Bool := false
  enable_vscode : Bool := false
  team : String := ""
  project : String := ""
deriving DecidableEq, Repr

/-- parse_memory (environment-operator.py lines 432-441): a Gi/Mi/Ki suffix
multiplies the integer prefix by the corresponding power of 1024; any other
string is parsed as a bare integer.  A Python ValueError from int(...) is
modelled as none. -/
def parse_memory (memory_str : String) : Option Int :=
  if strEndsWith memory_str "Gi" then
    (strToInt? (strDropRight memory_str 2)).map (fun n => n * 1024 ^ 3)
  else if strEndsWith memory_str "Mi" then
    (strToInt? (strDropRight memory_str 2)).map (fun n => n * 1024 ^ 2)
  else if strEndsWith memory_str "Ki" then
    (strToInt? (strDropRight memory_str 2)).map (fun n => n * 1024)
  else
    strToInt? memory_str

/-- Python truthiness of spec.resources.get("gpu") (lines 295, 386, 410):
the key is present with a non-empty string value. -/
def gpuRequested (spec : EnvironmentSpec) : Bool :=
  match spec.resources_gpu with
  | none => false
  | some s => s ≠ ""

/-- Node selector dict produced by get_node_selector: always the amd64 arch key
plus exactly one workload-type key. -/
structure NodeSelector where
  arch : String
  workload_type : String
deriving DecidableEq, Repr

/-- get_node_selector (environment-operator.py lines 377-392).  The memory
parse failure (ValueError escaping from parse_memory) is modelled as none. -/
def get_node_selector (spec : EnvironmentSpec) : Option NodeSelector :=
  let memory_limit := spec.limits_memory.getD "0Gi"
  match parse_memory memory_limit with
  | none => none
  | some mem =>
    if mem ≥ 100 * 1024 ^ 3 then some ⟨"amd64", "high-memory"⟩
    else if gpuRequested spec then some ⟨"amd64", "gpu"⟩
    else some ⟨"amd64", "development"⟩

/-- V1Toleration fields as set by get_tolerations. -/
structure Toleration where
  key : String
  op : String
  value : String
  effect : String
deriving DecidableEq, Repr

/-- get_tolerations (environment-operator.py lines 394-430); same cascade as
get_node_selector, emitting a single-element toleration list. -/
def get_tolerations (spec : EnvironmentSpec) : Option (List Toleration) :=
  let memory_limit := spec.limits_memory.getD "0Gi"
  match parse_memory memory_limit with
  | none => none
  | some mem =>
    if mem ≥ 100 * 1024 ^ 3 then
      some [⟨"workload-type", "Equal", "high-memory", "NoSchedule"⟩]
    else if gpuRequested spec then
      some [⟨"workload-type", "Equal", "gpu", "NoSchedule"⟩]
    else
      some [⟨"workload-type", "Equal", "development", "NoSchedule"⟩]

/-- The V1Namespace descriptor built by create_namespace (environment-operator.py
lines 63-85): name, labels, and the two annotations.  The created-at annotation
holds datetime.utcnow().isoformat(), modelled by the wall-clock argument now. -/
structure NamespaceObj where
  nsname : String
  labels : List (String × String)
  ann_created_at : Nat
  ann_ttl : String
deriving DecidableEq, Repr

/-- create_namespace's object construction (lines 63-85).  now is the wall
clock read by datetime.utcnow() at line 80. -/
def create_namespace_obj (env_id team project : String) (now : Nat) : NamespaceObj :=
  { nsname := "dev-env-" ++ strTake env_id 8
    labels := [
      ("app.kubernetes.io/managed-by", "dev-platform"),
      ("dev-platform/environment-id", env_id),
      ("dev-platform/team", team),
      ("dev-platform/project", project),
      ("pod-security.kubernetes.io/enforce", "restricted"),
      ("pod-security.kubernetes.io/audit", "restricted"),
      ("pod-security.kubernetes.io/warn", "restricted")]
    ann_created_at := now
    ann_ttl := "24h" }

/-- V1ServicePort fields used by create_service. -/
structure ServicePort where
  pname : String
  port : Nat
  target_port : Nat
deriving DecidableEq, Repr

/-- The V1Service descriptor built by create_service (lines 443-475). -/
structure ServiceObj where
  svcname : String
  svc_type : String
  selector_app : String
  ports : List ServicePort
  session_affinity : String
deriving DecidableEq, Repr

/-- create_service's object construction (environment-operator.py lines
443-475): one port per enabled feature flag, ClientIP session affinity. -/
def create_service_obj (env_id : String) (spec : EnvironmentSpec) : ServiceObj :=
  { svcname := "dev-env-" ++ strTake env_id 8 ++ "-service"
    svc_type := "LoadBalancer"
    selector_app := "dev-env-" ++ strTake env_id 8
    ports :=
      (if spec.enable_ssh then [⟨"ssh", 22, 22⟩] else []) ++
      (if spec.enable_jupyter then [⟨"jupyter", 8888, 8888⟩] else []) ++
      (if spec.enable_vscode then [⟨"vscode", 8080, 8080⟩] else [])
    session_affinity := "ClientIP" }

/-- Outcome of a single Kubernetes API call: success, or an ApiException with
the given HTTP status. -/
inductive ApiResult where
  | ok
  | apiErr (status : Nat)
deriving DecidableEq, Repr

/-- Cluster API creation calls issued by the create_environment handler, in
order.  The PVC call records the raw storage size string passed through
(environment-operator.py lines 522-523: the storage quantity is never parsed). -/
inductive ClusterCall where
  | createNamespace
  | createNetworkPolicy
  | createPVC (size : String)
  | createDeployment
  | createService
deriving DecidableEq, Repr

/-- The try/except ApiException pattern shared by every create_* method
(e.g. lines 86-94): a 409 status is swallowed, any other status re-raised. -/
def guard409 : ApiResult → Except Nat Unit
  | .ok => .ok ()
  | .apiErr s => if s = 409 then .ok () else .error s

/-- Errors escaping the create_environment handler: a ValueError from
parse_memory while building the deployment, or a re-raised ApiException. -/
inductive CreateErr where
  | valueError
  | api (status : Nat)
deriving DecidableEq, Repr

/-- Cluster responses to the five creation calls of one create_environment
attempt, in call order. -/
structure ApiResponses where
  ns : ApiResult
  np : ApiResult
  pvc : ApiResult
  dep : ApiResult
  svc : ApiResult
deriving DecidableEq, Repr

/-- create_environment handler (environment-operator.py lines 489-537):
namespace, network policy, PVC, deployment, service, in that order, each step
swallowing 409 and re-raising anything else.  create_deployment builds the pod
template (calling get_node_selector / get_tolerations, hence parse_memory on
the memory limit, lines 339-340) before its API call, so a malformed memory
limit raises after the first three cluster calls and before the deployment
call.  Returns the handler outcome and the list of cluster calls issued. -/
def create_environment (spec : EnvironmentSpec) (env_id : String)
    (rs : ApiResponses) : Except CreateErr String × List ClusterCall :=
  let storage_size := spec.resources_storage.getD "10Gi"
  match guard409 rs.ns with
  | .error s => (.error (.api s), [.createNamespace])
  | .ok _ =>
    match guard409 rs.np with
    | .error s => (.error (.api s), [.createNamespace, .createNetworkPolicy])
    | .ok _ =>
      match guard409 rs.pvc with
      | .error s =>
          (.error (.api s),
           [.createNamespace, .createNetworkPolicy, .createPVC storage_size])
      | .ok _ =>
        match get_node_selector spec with
        | none =>
            (.error .valueError,
             [.createNamespace, .createNetworkPolicy, .createPVC storage_size])
        | some _ =>
          match guard409 rs.dep with
          | .error s =>
              (.error (.api s),
               [.createNamespace, .createNetworkPolicy, .createPVC storage_size,
                .createDeployment])
          | .ok _ =>
            match guard409 rs.svc with
            | .error s =>
                (.error (.api s),
                 [.createNamespace, .createNetworkPolicy, .createPVC storage_size,
                  .createDeployment, .createService])
            | .ok _ =>
                (.ok ("dev-env-" ++ strTake env_id 8),
                 [.createNamespace, .createNetworkPolicy, .createPVC storage_size,
                  .createDeployment, .createService])

/-- delete_environment handler (environment-operator.py lines 540-558):
deletes the namespace; a 404 ApiException is swallowed, others re-raised. -/
def delete_environment (r : ApiResult) : Except Nat Unit :=
  match r with
  | .ok => .ok ()
  | .apiErr s => if s = 404 then .ok () else .error s

/-- ManagedDNSRecord: one value of the DNSController.managed_records dict
(dns-controller.py lines 148-155).  Timestamps are modelled as naturals in
place of the stored isoformat strings, which datetime.fromisoformat round-trips
at line 268. -/
structure ManagedRecord where
  hostname : String
  target : String
  service : String
  created_at : Nat
  last_updated : Nat
deriving DecidableEq, Repr

/-- The managed_records dict (dns-controller.py line 51), modelled as an
association list keyed by environment id; Python dict semantics guarantee
no duplicate keys, which theorems assume via a Nodup hypothesis where it
matters. -/
abbrev RecordMap := List (String × ManagedRecord)

/-- Python `del dict[k]` / key removal. -/
def recErase (m : RecordMap) (k : String) : RecordMap :=
  match m with
  | [] => []
  | p :: t => if p.1 = k then recErase t k else p :: recErase t k

/-- Python `dict[k] = v`: overwrite, keeping at most one entry per key. -/
def recInsert (m : RecordMap) (k : String) (v : ManagedRecord) : RecordMap :=
  (k, v) :: recErase m k

/-- Python `dict.get(k)` / `k in dict` followed by `dict[k]`. -/
def recLookup (m : RecordMap) (k : String) : Option ManagedRecord :=
  match m with
  | [] => none
  | p :: t => if k = p.1 then some p.2 else recLookup t k

/-- Python truthiness of an optional string (`if not env_id`, `if not
ingress`): present and non-empty. -/
def truthyStr : Option String → Option String
  | none => none
  | some s => if s = "" then none else some s

/-- The parts of a Kubernetes service object the DNSController reads:
metadata.name, metadata.namespace, the environment-id label, and the external
ingress point extracted by get_service_ingress (hostname or ip of the first
load-balancer ingress, none when absent). -/
structure K8sService where
  sname : String
  snamespace : String
  label_env_id : Option String
  ingress : Option String
deriving DecidableEq, Repr

/-- Record-type classification used at lines 143, 177 and 287:
CNAME for an ELB alias suffix, A otherwise. -/
def recordType (target : String) : String :=
  if strEndsWith target ".elb.amazonaws.com" then "CNAME" else "A"

/-- A Route53 change request as submitted by create_route53_record (UPSERT)
or delete_route53_record (DELETE). -/
inductive R53Call where
  | upsert (hostname target rtype : String)
  | del (hostname target rtype : String)
deriving DecidableEq, Repr

/-- create_or_update_dns_record (dns-controller.py lines 119-160).  r53ok
records whether the Route53 call succeeds; on failure create_route53_record
re-raises (line 224), the outer except at line 159 swallows the error, and the
managed_records write at lines 149-155 is skipped.  now is the wall clock read
by datetime.utcnow().  Returns the new map and the Route53 calls issued. -/
def create_or_update_dns_record (domain_suffix : String) (m : RecordMap)
    (svc : K8sService) (now : Nat) (r53ok : Bool) : RecordMap × List R53Call :=
  match truthyStr svc.label_env_id with
  | none => (m, [])
  | some env_id =>
    match truthyStr svc.ingress with
    | none => (m, [])
    | some ingress =>
      let hostname := strTake env_id 8 ++ "." ++ domain_suffix
      let call := R53Call.upsert hostname ingress (recordType ingress)
      if r53ok then
        (recInsert m env_id
          { hostname := hostname
            target := ingress
            service := svc.snamespace ++ "/" ++ svc.sname
            created_at := now
            last_updated := now }, [call])
      else
        (m, [call])

/-- delete_dns_record (dns-controller.py lines 162-186).  When the Route53
delete fails, delete_route53_record re-raises (line 253), the except at line
185 swallows it, and the `del managed_records[env_id]` at line 181 is skipped,
leaving the entry in the map.  The delete request carries the previously
recorded hostname/target, with the record type recomputed from the recorded
target (line 177). -/
def delete_dns_record (m : RecordMap) (svc : K8sService) (r53ok : Bool) :
    RecordMap × List R53Call :=
  match truthyStr svc.label_env_id with
  | none => (m, [])
  | some env_id =>
    match recLookup m env_id with
    | none => (m, [])
    | some rec =>
      let call := R53Call.del rec.hostname rec.target (recordType rec.target)
      if r53ok then (recErase m env_id, [call]) else (m, [call])

/-- Watch event kinds dispatched by process_service_event; `other` covers any
event type matching neither branch (falls through, lines 114-117). -/
inductive EventType where
  | added
  | modified
  | deleted
  | other
deriving DecidableEq, Repr

/-- process_service_event (dns-controller.py lines 107-117). -/
def process_service_event (domain_suffix : String) (m : RecordMap)
    (event_type : EventType) (svc : K8sService) (now : Nat) (r53ok : Bool) :
    RecordMap × List R53Call :=
  match event_type with
  | .added => create_or_update_dns_record domain_suffix m svc now r53ok
  | .modified => create_or_update_dns_record domain_suffix m svc now r53ok
  | .deleted => delete_dns_record m svc r53ok
  | .other => (m, [])

/-- Sequential processing of a list of watch notifications, each carrying its
event kind, service object, arrival wall-clock time, and Route53 outcome;
accumulates the Route53 calls in issue order. -/
def process_events (domain_suffix : String) (m : RecordMap)
    (evs : List (EventType × K8sService × Nat × Bool)) :
    RecordMap × List R53Call :=
  match evs with
  | [] => (m, [])
  | (et, svc, now, ok) :: rest =>
    let step := process_service_event domain_suffix m et svc now ok
    let res := process_events domain_suffix step.1 rest
    (res.1, step.2 ++ res.2)

/-- Outcome of the read_namespaced_service point lookup in
cleanup_stale_records (lines 276-279): found, a 404 ApiException (marks the
entry stale), or any other ApiException (silently skipped). -/
inductive LookupResult where
  | found
  | notFound
  | otherErr
deriving DecidableEq, Repr

/-- The Route53 DELETE call built for one stale entry (lines 284-288):
recorded hostname and target, type recomputed from the recorded target. -/
def mkDel (p : String × ManagedRecord) : R53Call :=
  R53Call.del p.2.hostname p.2.target (recordType p.2.target)

/-- Phase one of cleanup_stale_records (lines 264-279): the entries whose
created-at is older than the 24-hour cutoff and whose backing service point
lookup reports 404.  svcLookup is keyed by the recorded "namespace/name"
service string. -/
def staleOf (m : RecordMap) (now : Nat) (svcLookup : String → LookupResult) :
    RecordMap :=
  m.filter (fun p =>
    decide (p.2.created_at < now - 86400 ∧
      svcLookup p.2.service = LookupResult.notFound))

/-- Phase two of cleanup_stale_records (lines 282-290): for each stale entry,
issue the Route53 delete, then remove the map entry.  delOk gives the outcome
of each delete call; a failing call raises, aborting the loop (caught by the
outer except at line 292), so later stale entries are left untouched. -/
def sweepDeletes (m : RecordMap) (stale : RecordMap) (delOk : String → Bool) :
    RecordMap × List R53Call :=
  match stale with
  | [] => (m, [])
  | p :: rest =>
    if delOk p.1 then
      let res := sweepDeletes (recErase m p.1) rest delOk
      (res.1, mkDel p :: res.2)
    else
      (m, [mkDel p])

/-- One iteration of cleanup_stale_records (dns-controller.py lines 255-293). -/
def cleanup_stale_records (m : RecordMap) (now : Nat)
    (svcLookup : String → LookupResult) (delOk : String → Bool) :
    RecordMap × List R53Call :=
  sweepDeletes m (staleOf m now svcLookup) delOk

theorem recLookup_erase_self (m : RecordMap) (k : String) :
    recLookup (recErase m k) k = none := by
  induction m with
  | nil => rfl
  | cons p t ih =>
    by_cases h : p.1 = k
    · simpa [recErase, h] using ih
    · have h2 : ¬ k = p.1 := fun hh => h hh.symm
      simp [recErase, h, recLookup, h2, ih]

theorem recLookup_erase_ne (m : RecordMap) (k k' : String) (h : k ≠ k') :
    recLookup (recErase m k') k = recLookup m k := by
  induction m with
  | nil => rfl
  | cons p t ih =>
    by_cases hp : p.1 = k'
    · have : k ≠ p.1 := fun hk => h (hk ▸ hp)
      simp [recErase, hp, recLookup, this, h, ih]
    · by_cases hk : k = p.1
      · simp [recErase, hp, recLookup, hk]
      · simp [recErase, hp, recLookup, hk, ih]

theorem recLookup_erase_none (m : RecordMap) (k k' : String)
    (h : recLookup m k = none) : recLookup (recErase m k') k = none := by
  by_cases hkk : k = k'
  · subst hkk; exact recLookup_erase_self m k
  · rw [recLookup_erase_ne m k k' hkk]; exact h

theorem recLookup_insert_self (m : RecordMap) (k : String) (v : ManagedRecord) :
    recLookup (recInsert m k v) k = some v := by
  simp [recInsert, recLookup]

theorem mem_of_recLookup (m : RecordMap) (k : String) (v : ManagedRecord)
    (h : recLookup m k = some v) : (k, v) ∈ m := by
  induction m with
  | nil => simp [recLookup] at h
  | cons p t ih =>
    obtain ⟨a, b⟩ := p
    by_cases hk : k = a
    · subst hk
      simp [recLookup] at h
      subst h
      exact List.mem_cons_self _ _
    · simp [recLookup, hk] at h
      exact List.mem_cons_of_mem _ (ih h)

theorem fst_ne_of_mem_recErase (m : RecordMap) (k : String)
    (q : String × ManagedRecord) (h : q ∈ recErase m k) : q.1 ≠ k := by
  induction m with
  | nil => simp [recErase] at h
  | cons p t ih =>
    by_cases hp : p.1 = k
    · simp [recErase, hp] at h
      exact ih h
    · simp [recErase, hp] at h
      rcases h with h | h
      · subst h; exact hp
      · exact ih h

theorem sweepDeletes_allOk (stale : RecordMap) (m : RecordMap)
    (delOk : String → Bool) (h : ∀ i, delOk i = true) :
    sweepDeletes m stale delOk =
      (stale.foldl (fun acc p => recErase acc p.1) m, stale.map mkDel) := by
  induction stale generalizing m with
  | nil => rfl
  | cons p t ih => simp [sweepDeletes, h p.1, ih]

theorem recLookup_foldl_erase_none (l : RecordMap) (m : RecordMap) (k : String)
    (h : recLookup m k = none) :
    recLookup (l.foldl (fun acc p => recErase acc p.1) m) k = none := by
  induction l generalizing m with
  | nil => exact h
  | cons p t ih =>
    simp only [List.foldl_cons]
    exact ih _ (recLookup_erase_none m k p.1 h)

theorem recLookup_foldl_erase_of_mem (l : RecordMap) (m : RecordMap)
    (k : String) (h : k ∈ l.map Prod.fst) :
    recLookup (l.foldl (fun acc p => recErase acc p.1) m) k = none := by
  induction l generalizing m with
  | nil => simp at h
  | cons p t ih =>
    simp only [List.foldl_cons]
    rw [List.map_cons] at h
    rcases List.mem_cons.mp h with hk | hk
    · exact recLookup_foldl_erase_none t _ k (hk ▸ recLookup_erase_self m p.1)
    · exact ih _ hk

theorem recLookup_sweep_not_mem (stale : RecordMap) (m : RecordMap)
    (delOk : String → Bool) (k : String) (h : k ∉ stale.map Prod.fst) :
    recLookup (sweepDeletes m stale delOk).1 k = recLookup m k := by
  induction stale generalizing m with
  | nil => rfl
  | cons p t ih =>
    have hne : k ≠ p.1 := by
      intro hk
      exact h (by simp [hk])
    have ht : k ∉ t.map Prod.fst := by
      intro hk
      exact h (by simp [hk])
    by_cases hok : delOk p.1 = true
    · simp only [sweepDeletes, hok, if_true]
      rw [ih _ ht, recLookup_erase_ne m k p.1 hne]
    · simp [sweepDeletes, hok]

theorem get_tolerations_eq_map (spec : EnvironmentSpec) :
    get_tolerations spec = (get_node_selector spec).map
      (fun sel => [⟨"workload-type", "Equal", sel.workload_type, "NoSchedule"⟩]) := by
  simp only [get_tolerations, get_node_selector]
  cases parse_memory (spec.limits_memory.getD "0Gi") with
  | none => rfl
  | some mem =>
    by_cases h1 : (107374182400 : Int) ≤ mem
    · simp [h1]
    · by_cases h2 : gpuRequested spec = true
      · simp [h1, h2]
      · simp [h1, h2]

/-- C1: the claim that materializing twice with identical (spec, identity)
input yields byte-identical descriptors fails on the namespace object, whose
created-at annotation records the wall-clock time of the call (second run at a
later clock reading differs from the first). -/
theorem c1_counterexample :
    create_namespace_obj "aaaabbbbcccc" "team-a" "proj-a" 0 ≠
      create_namespace_obj "aaaabbbbcccc" "team-a" "proj-a" 1 := by
  decide

/-- C1 (amended): two materializations of the namespace object with identical
spec and identity agree on the name, all labels, and the ttl annotation; only
the created-at annotation differs, recording each run's wall-clock reading.
All other object builders in the embedding take no clock input. -/
theorem c1_amended_deterministic_up_to_created_at (env_id team project : String)
    (t1 t2 : Nat) :
    (create_namespace_obj env_id team project t1).nsname =
      (create_namespace_obj env_id team project t2).nsname ∧
    (create_namespace_obj env_id team project t1).labels =
      (create_namespace_obj env_id team project t2).labels ∧
    (create_namespace_obj env_id team project t1).ann_ttl =
      (create_namespace_obj env_id team project t2).ann_ttl ∧
    (create_namespace_obj env_id team project t1).ann_created_at = t1 :=
  ⟨rfl, rfl, rfl, rfl⟩

/-- C2: the code does not reject malformed quantities before cluster calls.
With a malformed memory limit "10G", the handler issues the namespace,
network-policy, and PVC creation calls before the ValueError from parse_memory
aborts the attempt; with a malformed storage size "10potatoes", nothing is
rejected at all and all five creation calls are issued, the PVC call carrying
the malformed quantity verbatim. -/
theorem c2_malformed_quantities_not_rejected_before_cluster_calls :
    (create_environment
        { name := "env"
          base_image := "img"
          limits_memory := some "10G" } "aaaabbbbcccc"
        ⟨.ok, .ok, .ok, .ok, .ok⟩ =
      (.error .valueError,
       [.createNamespace, .createNetworkPolicy, .createPVC "10Gi"])) ∧
    (create_environment
        { name := "env"
          base_image := "img"
          resources_storage := some "10potatoes"
          limits_memory := some "4Gi" }
        "aaaabbbbcccc" ⟨.ok, .ok, .ok, .ok, .ok⟩ =
      (.ok "dev-env-aaaabbbb",
       [.createNamespace, .createNetworkPolicy, .createPVC "10potatoes",
        .createDeployment, .createService])) :=
  ⟨rfl, rfl⟩

/-- Concrete spec requesting one GPU together with a 128 GiB memory limit. -/
def gpuHighMemSpec : EnvironmentSpec :=
  { name := "env"
    base_image := "img"
    resources_gpu := some "1"
    limits_memory := some "128Gi" }

/-- Concrete spec requesting one GPU with a small (4 GiB) memory limit. -/
def gpuSmallSpec : EnvironmentSpec :=
  { name := "env"
    base_image := "img"
    resources_gpu := some "1"
    limits_memory := some "4Gi" }

/-- C3: a spec with a non-empty GPU request and a memory limit of at least
100 GiB does not receive the accelerator-pool selector or toleration; the
memory branch is checked first, so it receives the high-memory pool instead,
refuting the claim that a GPU request always yields the accelerator pool. -/
theorem c3_counterexample :
    gpuRequested gpuHighMemSpec = true ∧
    get_node_selector gpuHighMemSpec = some ⟨"amd64", "high-memory"⟩ ∧
    get_tolerations gpuHighMemSpec =
      some [⟨"workload-type", "Equal", "high-memory", "NoSchedule"⟩] := by
  refine ⟨rfl, by decide, by decide⟩

/-- C3 (amended): for every spec with a non-empty GPU request whose memory
limit parses below 100 GiB, the workload receives both the accelerator-pool
node selector and the accelerator-pool toleration. -/
theorem c3_amended_gpu_pairing (spec : EnvironmentSpec) (mem : Int)
    (hgpu : gpuRequested spec = true)
    (hmem : parse_memory (spec.limits_memory.getD "0Gi") = some mem)
    (hsmall : mem < 100 * 1024 ^ 3) :
    get_node_selector spec = some ⟨"amd64", "gpu"⟩ ∧
    get_tolerations spec =
      some [⟨"workload-type", "Equal", "gpu", "NoSchedule"⟩] := by
  have h100 : (100 : Int) * 1024 ^ 3 = 107374182400 := by norm_num
  rw [h100] at hsmall
  constructor <;> simp [get_node_selector, get_tolerations, hmem, hgpu, hsmall]

theorem c3_amended_gpu_pairing_witness :
    get_node_selector gpuSmallSpec = some ⟨"amd64", "gpu"⟩ ∧
    get_tolerations gpuSmallSpec =
      some [⟨"workload-type", "Equal", "gpu", "NoSchedule"⟩] :=
  c3_amended_gpu_pairing gpuSmallSpec (4 * 1024 ^ 3)
    (by decide) (by decide) (by decide)

/-- C7: whenever get_node_selector and get_tolerations both succeed on a spec,
the single emitted toleration names exactly the pool the node selector names:
the selector references the accelerator pool iff the toleration does, and
likewise for the high-memory and default development pools. -/
theorem c7_selector_toleration_same_pool (spec : EnvironmentSpec)
    (sel : NodeSelector) (tols : List Toleration)
    (hsel : get_node_selector spec = some sel)
    (htol : get_tolerations spec = some tols) :
    tols = [⟨"workload-type", "Equal", sel.workload_type, "NoSchedule"⟩] ∧
    ((sel.workload_type = "gpu") ↔
      tols = [⟨"workload-type", "Equal", "gpu", "NoSchedule"⟩]) ∧
    ((sel.workload_type = "high-memory") ↔
      tols = [⟨"workload-type", "Equal", "high-memory", "NoSchedule"⟩]) ∧
    ((sel.workload_type = "development") ↔
      tols = [⟨"workload-type", "Equal", "development", "NoSchedule"⟩]) := by
  rw [get_tolerations_eq_map, hsel] at htol
  simp only [Option.map_some', Option.some.injEq] at htol
  subst htol
  refine ⟨rfl, ?_, ?_, ?_⟩ <;>
    simp [Toleration.mk.injEq, eq_comm]

theorem c7_selector_toleration_same_pool_witness :
    ([⟨"workload-type", "Equal", "development", "NoSchedule"⟩] : List Toleration) =
      [⟨"workload-type", "Equal",
        (NodeSelector.mk "amd64" "development").workload_type, "NoSchedule"⟩] ∧
    (((NodeSelector.mk "amd64" "development").workload_type = "gpu") ↔
      ([⟨"workload-type", "Equal", "development", "NoSchedule"⟩] : List Toleration) =
        [⟨"workload-type", "Equal", "gpu", "NoSchedule"⟩]) ∧
    (((NodeSelector.mk "amd64" "development").workload_type = "high-memory") ↔
      ([⟨"workload-type", "Equal", "development", "NoSchedule"⟩] : List Toleration) =
        [⟨"workload-type", "Equal", "high-memory", "NoSchedule"⟩]) ∧
    (((NodeSelector.mk "amd64" "development").workload_type = "development") ↔
      ([⟨"workload-type", "Equal", "development", "NoSchedule"⟩] : List Toleration) =
        [⟨"workload-type", "Equal", "development", "NoSchedule"⟩]) :=
  c7_selector_toleration_same_pool
    { name := "env", base_image := "img" } _ _ (by decide) (by decide)

/-- C9: the produced service exposes exactly the ports of the enabled feature
flags (shell access port 22, notebook access port 8888, editor access port
8080), no others, and sets client-IP session affinity. -/
theorem c9_service_ports_exact (env_id : String) (spec : EnvironmentSpec) :
    ((create_service_obj env_id spec).ports.any (fun p => p.port == 22) =
      spec.enable_ssh) ∧
    ((create_service_obj env_id spec).ports.any (fun p => p.port == 8888) =
      spec.enable_jupyter) ∧
    ((create_service_obj env_id spec).ports.any (fun p => p.port == 8080) =
      spec.enable_vscode) ∧
    (∀ p ∈ (create_service_obj env_id spec).ports,
      p.port = 22 ∨ p.port = 8888 ∨ p.port = 8080) ∧
    (create_service_obj env_id spec).session_affinity = "ClientIP" := by
  cases hs : spec.enable_ssh <;> cases hj : spec.enable_jupyter <;>
    cases hv : spec.enable_vscode <;>
    simp [create_service_obj, hs, hj, hv]

/-- Cluster response that is either success or the 409 already-exists
conflict. -/
def ok409 (r : ApiResult) : Prop := r = .ok ∨ r = .apiErr 409

/-- C8: during environment creation, a 409 (already exists) response to any of
the five object creation calls is swallowed and the sequence runs to
completion with a success result and all five calls issued; a non-409 failure
at any step — namespace, network policy, PVC, deployment, or service — is
re-raised as the handler error (shown for each step in turn, with every
earlier step answering ok or 409).  During environment deletion, a 404 (not
found) response to the namespace delete is treated as success and any non-404
failure is re-raised. -/
theorem c8_conflict_treated_as_success (spec : EnvironmentSpec)
    (env_id : String) (rs : ApiResponses) (sel : NodeSelector) (s : Nat)
    (h1 : ok409 rs.ns) (h2 : ok409 rs.np) (h3 : ok409 rs.pvc)
    (h4 : ok409 rs.dep) (h5 : ok409 rs.svc)
    (hsel : get_node_selector spec = some sel)
    (hs409 : s ≠ 409) (hs404 : s ≠ 404) :
    create_environment spec env_id rs =
      (.ok ("dev-env-" ++ strTake env_id 8),
       [.createNamespace, .createNetworkPolicy,
        .createPVC (spec.resources_storage.getD "10Gi"),
        .createDeployment, .createService]) ∧
    (create_environment spec env_id
        ⟨.apiErr s, rs.np, rs.pvc, rs.dep, rs.svc⟩).1 = .error (.api s) ∧
    (create_environment spec env_id
        ⟨rs.ns, .apiErr s, rs.pvc, rs.dep, rs.svc⟩).1 = .error (.api s) ∧
    (create_environment spec env_id
        ⟨rs.ns, rs.np, .apiErr s, rs.dep, rs.svc⟩).1 = .error (.api s) ∧
    (create_environment spec env_id
        ⟨rs.ns, rs.np, rs.pvc, .apiErr s, rs.svc⟩).1 = .error (.api s) ∧
    (create_environment spec env_id
        ⟨rs.ns, rs.np, rs.pvc, rs.dep, .apiErr s⟩).1 = .error (.api s) ∧
    delete_environment .ok = .ok () ∧
    delete_environment (.apiErr 404) = .ok () ∧
    delete_environment (.apiErr s) = .error s := by
  rcases h1 with h1 | h1 <;> rcases h2 with h2 | h2 <;>
    rcases h3 with h3 | h3 <;> rcases h4 with h4 | h4 <;>
    rcases h5 with h5 | h5 <;>
    simp [create_environment, guard409, h1, h2, h3, h4, h5, hsel,
      delete_environment, hs409, hs404]

theorem c8_conflict_treated_as_success_witness :
    create_environment gpuSmallSpec "aaaabbbbcccc"
      ⟨.apiErr 409, .apiErr 409, .apiErr 409, .apiErr 409, .apiErr 409⟩ =
      (.ok ("dev-env-" ++ strTake "aaaabbbbcccc" 8),
       [.createNamespace, .createNetworkPolicy,
        .createPVC (gpuSmallSpec.resources_storage.getD "10Gi"),
        .createDeployment, .createService]) ∧
    (create_environment gpuSmallSpec "aaaabbbbcccc"
        ⟨.apiErr 500, .apiErr 409, .apiErr 409, .apiErr 409, .apiErr 409⟩).1 =
      .error (.api 500) ∧
    (create_environment gpuSmallSpec "aaaabbbbcccc"
        ⟨.apiErr 409, .apiErr 500, .apiErr 409, .apiErr 409, .apiErr 409⟩).1 =
      .error (.api 500) ∧
    (create_environment gpuSmallSpec "aaaabbbbcccc"
        ⟨.apiErr 409, .apiErr 409, .apiErr 500, .apiErr 409, .apiErr 409⟩).1 =
      .error (.api 500) ∧
    (create_environment gpuSmallSpec "aaaabbbbcccc"
        ⟨.apiErr 409, .apiErr 409, .apiErr 409, .apiErr 500, .apiErr 409⟩).1 =
      .error (.api 500) ∧
    (create_environment gpuSmallSpec "aaaabbbbcccc"
        ⟨.apiErr 409, .apiErr 409, .apiErr 409, .apiErr 409, .apiErr 500⟩).1 =
      .error (.api 500) ∧
    delete_environment .ok = .ok () ∧
    delete_environment (.apiErr 404) = .ok () ∧
    delete_environment (.apiErr 500) = .error 500 :=
  c8_conflict_treated_as_success gpuSmallSpec "aaaabbbbcccc"
    ⟨.apiErr 409, .apiErr 409, .apiErr 409, .apiErr 409, .apiErr 409⟩
    ⟨"amd64", "gpu"⟩ 500 (Or.inr rfl) (Or.inr rfl) (Or.inr rfl)
    (Or.inr rfl) (Or.inr rfl) (by decide) (by decide) (by decide)

/-- C4: on a deleted notification for a mapped identity, when the provider
delete call fails (raises), the exception skips the map deletion and is then
swallowed by the handler, so the entry is NOT removed from the map — refuting
the claim that the entry is removed regardless of the provider outcome.
Concretely: map with one entry for "envA", deleted event for "envA", provider
call failing: the delete request was issued but the entry is still present. -/
theorem c4_counterexample :
    recLookup (delete_dns_record
        [("envA", ⟨"h.example.com", "1.2.3.4", "nsA/svc1", 5, 5⟩)]
        ⟨"svc1", "nsA", some "envA", none⟩ false).1 "envA" =
      some ⟨"h.example.com", "1.2.3.4", "nsA/svc1", 5, 5⟩ ∧
    (delete_dns_record
        [("envA", ⟨"h.example.com", "1.2.3.4", "nsA/svc1", 5, 5⟩)]
        ⟨"svc1", "nsA", some "envA", none⟩ false).2 =
      [R53Call.del "h.example.com" "1.2.3.4" "A"] :=
  ⟨rfl, rfl⟩

/-- C4 (amended): on a deleted notification for a mapped identity, one delete
request carrying the previously recorded target and kind is issued in either
case; the map entry is removed only when the provider delete call returns
without raising — when it raises, the error is logged and swallowed and the
entry remains in the map. -/
theorem c4_amended_entry_removed_only_on_provider_success (m : RecordMap)
    (svc : K8sService) (env_id : String) (rec : ManagedRecord)
    (henv : truthyStr svc.label_env_id = some env_id)
    (hlook : recLookup m env_id = some rec) :
    (recLookup (delete_dns_record m svc true).1 env_id = none ∧
     (delete_dns_record m svc true).2 =
       [R53Call.del rec.hostname rec.target (recordType rec.target)]) ∧
    (recLookup (delete_dns_record m svc false).1 env_id = some rec ∧
     (delete_dns_record m svc false).2 =
       [R53Call.del rec.hostname rec.target (recordType rec.target)]) := by
  simp only [delete_dns_record, henv, hlook]
  exact ⟨⟨recLookup_erase_self m env_id, rfl⟩, ⟨hlook, rfl⟩⟩

theorem c4_amended_entry_removed_only_on_provider_success_witness :
    (recLookup (delete_dns_record
        [("envB", ⟨"b.example.com", "lb2.elb.amazonaws.com", "nsB/svc2", 7, 9⟩)]
        ⟨"svc2", "nsB", some "envB", none⟩ true).1 "envB" = none ∧
     (delete_dns_record
        [("envB", ⟨"b.example.com", "lb2.elb.amazonaws.com", "nsB/svc2", 7, 9⟩)]
        ⟨"svc2", "nsB", some "envB", none⟩ true).2 =
       [R53Call.del "b.example.com" "lb2.elb.amazonaws.com"
         (recordType "lb2.elb.amazonaws.com")]) ∧
    (recLookup (delete_dns_record
        [("envB", ⟨"b.example.com", "lb2.elb.amazonaws.com", "nsB/svc2", 7, 9⟩)]
        ⟨"svc2", "nsB", some "envB", none⟩ false).1 "envB" =
       some ⟨"b.example.com", "lb2.elb.amazonaws.com", "nsB/svc2", 7, 9⟩ ∧
     (delete_dns_record
        [("envB", ⟨"b.example.com", "lb2.elb.amazonaws.com", "nsB/svc2", 7, 9⟩)]
        ⟨"svc2", "nsB", some "envB", none⟩ false).2 =
       [R53Call.del "b.example.com" "lb2.elb.amazonaws.com"
         (recordType "lb2.elb.amazonaws.com")]) :=
  c4_amended_entry_removed_only_on_provider_success
    [("envB", ⟨"b.example.com", "lb2.elb.amazonaws.com", "nsB/svc2", 7, 9⟩)]
    ⟨"svc2", "nsB", some "envB", none⟩ "envB"
    ⟨"b.example.com", "lb2.elb.amazonaws.com", "nsB/svc2", 7, 9⟩
    (by decide) (by decide)

/-- C5: processing [added(A, x), modified(A, y), deleted(A)] in order with all
provider calls succeeding leaves no map entry for A and issues exactly two
upserts followed by one delete, in that order, with the delete carrying the
previously recorded target y (and the kind derived from y), not a freshly
computed one. -/
theorem c5_event_sequence_ordering (ds : String) (m : RecordMap)
    (A x y n1 ns1 n2 ns2 n3 ns3 : String) (t1 t2 t3 : Nat)
    (hA : A ≠ "") (hx : x ≠ "") (hy : y ≠ "") :
    recLookup (process_events ds m
      [(.added, ⟨n1, ns1, some A, some x⟩, t1, true),
       (.modified, ⟨n2, ns2, some A, some y⟩, t2, true),
       (.deleted, ⟨n3, ns3, some A, none⟩, t3, true)]).1 A = none ∧
    (process_events ds m
      [(.added, ⟨n1, ns1, some A, some x⟩, t1, true),
       (.modified, ⟨n2, ns2, some A, some y⟩, t2, true),
       (.deleted, ⟨n3, ns3, some A, none⟩, t3, true)]).2 =
      [R53Call.upsert (strTake A 8 ++ "." ++ ds) x (recordType x),
       R53Call.upsert (strTake A 8 ++ "." ++ ds) y (recordType y),
       R53Call.del (strTake A 8 ++ "." ++ ds) y (recordType y)] := by
  simp only [process_events, process_service_event, create_or_update_dns_record,
    delete_dns_record, truthyStr, if_neg hA, if_neg hx, if_neg hy, if_true,
    recLookup_insert_self, recLookup_erase_self]
  simp

theorem c5_event_sequence_ordering_witness :
    recLookup (process_events "dev.example.com" []
      [(.added, ⟨"s1", "nsA", some "envabcdef", some "1.2.3.4"⟩, 10, true),
       (.modified,
        ⟨"s1", "nsA", some "envabcdef", some "lb1.elb.amazonaws.com"⟩, 20, true),
       (.deleted, ⟨"s1", "nsA", some "envabcdef", none⟩, 30, true)]).1
      "envabcdef" = none ∧
    (process_events "dev.example.com" []
      [(.added, ⟨"s1", "nsA", some "envabcdef", some "1.2.3.4"⟩, 10, true),
       (.modified,
        ⟨"s1", "nsA", some "envabcdef", some "lb1.elb.amazonaws.com"⟩, 20, true),
       (.deleted, ⟨"s1", "nsA", some "envabcdef", none⟩, 30, true)]).2 =
      [R53Call.upsert (strTake "envabcdef" 8 ++ "." ++ "dev.example.com")
        "1.2.3.4" (recordType "1.2.3.4"),
       R53Call.upsert (strTake "envabcdef" 8 ++ "." ++ "dev.example.com")
        "lb1.elb.amazonaws.com" (recordType "lb1.elb.amazonaws.com"),
       R53Call.del (strTake "envabcdef" 8 ++ "." ++ "dev.example.com")
        "lb1.elb.amazonaws.com" (recordType "lb1.elb.amazonaws.com")] :=
  c5_event_sequence_ordering "dev.example.com" [] "envabcdef" "1.2.3.4"
    "lb1.elb.amazonaws.com" "s1" "nsA" "s1" "nsA" "s1" "nsA" 10 20 30
    (by decide) (by decide) (by decide)

/-- Occurrence count of one (key, record) pair in a record map. -/
def pairCount (l : RecordMap) (p : String × ManagedRecord) : Nat :=
  match l with
  | [] => 0
  | q :: t => (if q = p then 1 else 0) + pairCount t p

theorem pairCount_eq_zero (l : RecordMap) (p : String × ManagedRecord)
    (h : p ∉ l) : pairCount l p = 0 := by
  induction l with
  | nil => rfl
  | cons q t ih =>
    have hq : ¬ q = p := fun e => h (e ▸ List.mem_cons_self q t)
    simp [pairCount, hq, ih (fun hm => h (List.mem_cons_of_mem _ hm))]

theorem pairCount_eq_one (l : RecordMap) (p : String × ManagedRecord)
    (hnd : l.Nodup) (hp : p ∈ l) : pairCount l p = 1 := by
  induction l with
  | nil => simp at hp
  | cons q t ih =>
    rcases List.mem_cons.mp hp with h | h
    · subst h
      simp [pairCount, pairCount_eq_zero t p (List.nodup_cons.mp hnd).1]
    · have hq : ¬ q = p := fun e => ((List.nodup_cons.mp hnd).1) (e ▸ h)
      simp [pairCount, hq, ih (List.nodup_cons.mp hnd).2 h]

/-- C6: any map entry older than the 24-hour grace window whose backing
service point lookup reports not-found is, in one sweep cycle with all
provider delete calls succeeding, removed from the map, while the cycle's
calls comprise exactly one delete per stale entry — the stale list containing
this entry exactly once — each delete carrying the entry's recorded hostname
and target with the record kind derived from that recorded target. -/
theorem c6_stale_sweep (m : RecordMap) (now : Nat)
    (svcLookup : String → LookupResult) (delOk : String → Bool)
    (env_id : String) (rec : ManagedRecord)
    (hnodup : (m.map Prod.fst).Nodup)
    (hlook : recLookup m env_id = some rec)
    (hold : rec.created_at < now - 86400)
    (hmiss : svcLookup rec.service = .notFound)
    (hok : ∀ i, delOk i = true) :
    recLookup (cleanup_stale_records m now svcLookup delOk).1 env_id = none ∧
    (cleanup_stale_records m now svcLookup delOk).2 =
      (staleOf m now svcLookup).map mkDel ∧
    pairCount (staleOf m now svcLookup) (env_id, rec) = 1 ∧
    mkDel (env_id, rec) =
      R53Call.del rec.hostname rec.target (recordType rec.target) := by
  have hmem : (env_id, rec) ∈ m := mem_of_recLookup m env_id rec hlook
  have hstale : (env_id, rec) ∈ staleOf m now svcLookup :=
    List.mem_filter.mpr ⟨hmem, by simp [hold, hmiss]⟩
  have hkey : env_id ∈ (staleOf m now svcLookup).map Prod.fst :=
    List.mem_map_of_mem Prod.fst hstale
  have hsweep := sweepDeletes_allOk (staleOf m now svcLookup) m delOk hok
  have hnodupPairs : (staleOf m now svcLookup).Nodup :=
    (List.Nodup.of_map Prod.fst hnodup).filter _
  refine ⟨?_, ?_, ?_, rfl⟩
  · unfold cleanup_stale_records
    rw [hsweep]
    exact recLookup_foldl_erase_of_mem _ m env_id hkey
  · unfold cleanup_stale_records
    rw [hsweep]
  · exact pairCount_eq_one _ _ hnodupPairs hstale

theorem c6_stale_sweep_witness :
    recLookup (cleanup_stale_records
        [("envC", ⟨"c.example.com", "5.6.7.8", "nsC/svc3", 100, 100⟩)]
        200000 (fun _ => LookupResult.notFound) (fun _ => true)).1
      "envC" = none ∧
    (cleanup_stale_records
        [("envC", ⟨"c.example.com", "5.6.7.8", "nsC/svc3", 100, 100⟩)]
        200000 (fun _ => LookupResult.notFound) (fun _ => true)).2 =
      (staleOf [("envC", ⟨"c.example.com", "5.6.7.8", "nsC/svc3", 100, 100⟩)]
        200000 (fun _ => LookupResult.notFound)).map mkDel ∧
    pairCount (staleOf [("envC", ⟨"c.example.com", "5.6.7.8", "nsC/svc3", 100, 100⟩)]
        200000 (fun _ => LookupResult.notFound))
      ("envC", ⟨"c.example.com", "5.6.7.8", "nsC/svc3", 100, 100⟩) = 1 ∧
    mkDel ("envC", ⟨"c.example.com", "5.6.7.8", "nsC/svc3", 100, 100⟩) =
      R53Call.del "c.example.com" "5.6.7.8" (recordType "5.6.7.8") :=
  c6_stale_sweep [("envC", ⟨"c.example.com", "5.6.7.8", "nsC/svc3", 100, 100⟩)]
    200000 (fun _ => LookupResult.notFound) (fun _ => true) "envC"
    ⟨"c.example.com", "5.6.7.8", "nsC/svc3", 100, 100⟩
    (by decide) (by decide) (by decide) (by decide) (fun _ => rfl)

/-- C10: a successful upsert for an identity already present in the map
overwrites the whole entry, setting both created-at and last-updated to the
current time; consequently, relative to any sweep whose cutoff does not exceed
that time, the refreshed entry is not in the stale set and survives the sweep
untouched. -/
theorem c10_upsert_refreshes_created_at (ds : String) (m : RecordMap)
    (svc : K8sService) (now : Nat) (env_id ingress : String)
    (oldRec : ManagedRecord) (now2 : Nat)
    (svcLookup : String → LookupResult) (delOk : String → Bool)
    (henv : truthyStr svc.label_env_id = some env_id)
    (hing : truthyStr svc.ingress = some ingress)
    (hprev : recLookup m env_id = some oldRec)
    (hrecent : ¬ now < now2 - 86400) :
    ∃ newRec : ManagedRecord,
      recLookup (create_or_update_dns_record ds m svc now true).1 env_id =
        some newRec ∧
      newRec.created_at = now ∧
      newRec.last_updated = now ∧
      (env_id, newRec) ∉
        staleOf (create_or_update_dns_record ds m svc now true).1 now2
          svcLookup ∧
      recLookup (cleanup_stale_records
          (create_or_update_dns_record ds m svc now true).1 now2 svcLookup
          delOk).1 env_id = some newRec := by
  have hstep : (create_or_update_dns_record ds m svc now true).1 =
      recInsert m env_id
        { hostname := strTake env_id 8 ++ "." ++ ds
          target := ingress
          service := svc.snamespace ++ "/" ++ svc.sname
          created_at := now
          last_updated := now } := by
    simp only [create_or_update_dns_record, henv, hing, if_true]
  have hkey : env_id ∉
      (staleOf (create_or_update_dns_record ds m svc now true).1 now2
        svcLookup).map Prod.fst := by
    rw [hstep]
    intro hmem
    obtain ⟨q, hq, hq1⟩ := List.mem_map.mp hmem
    obtain ⟨hqmem, hqpred⟩ := List.mem_filter.mp hq
    simp only [recInsert] at hqmem
    rcases List.mem_cons.mp hqmem with h | h
    · subst h
      exact hrecent (of_decide_eq_true hqpred).1
    · exact fst_ne_of_mem_recErase m env_id q h hq1
  refine ⟨{ hostname := strTake env_id 8 ++ "." ++ ds
            target := ingress
            service := svc.snamespace ++ "/" ++ svc.sname
            created_at := now
            last_updated := now }, ?_, rfl, rfl, ?_, ?_⟩
  · rw [hstep, recLookup_insert_self]
  · exact fun hmem => hkey (List.mem_map_of_mem Prod.fst hmem)
  · unfold cleanup_stale_records
    rw [recLookup_sweep_not_mem _ _ _ _ hkey, hstep, recLookup_insert_self]

theorem c10_upsert_refreshes_created_at_witness :
    ∃ newRec : ManagedRecord,
      recLookup (create_or_update_dns_record "dev.example.com"
          [("envD", ⟨"d.example.com", "9.9.9.9", "nsD/svc4", 3, 3⟩)]
          ⟨"svc4", "nsD", some "envD", some "9.9.9.10"⟩ 5000 true).1 "envD" =
        some newRec ∧
      newRec.created_at = 5000 ∧
      newRec.last_updated = 5000 ∧
      ("envD", newRec) ∉
        staleOf (create_or_update_dns_record "dev.example.com"
          [("envD", ⟨"d.example.com", "9.9.9.9", "nsD/svc4", 3, 3⟩)]
          ⟨"svc4", "nsD", some "envD", some "9.9.9.10"⟩ 5000 true).1 90000
          (fun _ => LookupResult.notFound) ∧
      recLookup (cleanup_stale_records
          (create_or_update_dns_record "dev.example.com"
            [("envD", ⟨"d.example.com", "9.9.9.9", "nsD/svc4", 3, 3⟩)]
            ⟨"svc4", "nsD", some "envD", some "9.9.9.10"⟩ 5000 true).1 90000
          (fun _ => LookupResult.notFound) (fun _ => true)).1 "envD" =
        some newRec :=
  c10_upsert_refreshes_created_at "dev.example.com"
    [("envD", ⟨"d.example.com", "9.9.9.9", "nsD/svc4", 3, 3⟩)]
    ⟨"svc4", "nsD", some "envD", some "9.9.9.10"⟩ 5000 "envD" "9.9.9.10"
    ⟨"d.example.com", "9.9.9.9", "nsD/svc4", 3, 3⟩ 90000
    (fun _ => LookupResult.notFound) (fun _ => true)
    (by decide) (by decide) (by decide) (by decide)
